import Mathlib

/-!
Verification of the AstroDrawChart aspect/event computation engine.

The JavaScript source is shallowly embedded over `ℚ` (JS numbers on the
non-NaN paths are modelled as rationals; instants are rational or natural
millisecond counts).  The two calculator classes are embedded in the
namespaces `TransitCalculator` (transit calculator module) and
`AstrologicalCalculator` (consolidated calculator module); the shared
angular-geometry helpers, identical in both classes, are defined once at
top level.  A separate `JSNum` layer (`Option ℚ`, with `none` playing the
role of `NaN`) embeds the same functions with JavaScript's NaN semantics
for the error-handling analysis.
-/

namespace AstroDraw

/-- Truncation toward zero, as JavaScript's implicit float-to-int steps use. -/
def truncQ (q : ℚ) : ℤ :=
  if 0 ≤ q then ⌊q⌋ else ⌈q⌉

/-- JavaScript's `%` operator on numbers: remainder with the sign of the
dividend (`a - b * trunc (a / b)`).  The divisor is nonzero at every use
site in the source (it is always the literal `360`). -/
def jsRem (a b : ℚ) : ℚ :=
  a - b * (truncQ (a / b) : ℚ)

/-- `calculateAngleBetweenPlanets(long1, long2)`: `|long1 − long2|`, folded
to `360 − x` when `x > 180`.  Identical in both calculator classes. -/
def calculateAngleBetweenPlanets (long1 long2 : ℚ) : ℚ :=
  let angle := |long1 - long2|
  if angle > 180 then 360 - angle else angle

/-- Longitude normalization prefix of `determinePlanetHouse`:
`planetLongitude % 360`, plus `360` when negative. -/
def normalize360 (x : ℚ) : ℚ :=
  let n := jsRem x 360
  if n < 0 then n + 360 else n

/-- House-membership test for cusp index `i` inside the
`determinePlanetHouse` loop: arc `[cusps[i], cusps[(i+1) % 12])`, with the
wrap branch when the arc crosses 0° Aries. -/
def houseMatch (lon : ℚ) (cusps : List ℚ) (i : ℕ) : Bool :=
  let currentCusp := cusps.getD i 0
  let nextCusp := cusps.getD ((i + 1) % 12) 0
  if nextCusp < currentCusp then
    decide (lon ≥ currentCusp) || decide (lon < nextCusp)
  else
    decide (currentCusp ≤ lon) && decide (lon < nextCusp)

/-- `determinePlanetHouse(planetLongitude, houseCusps).number`: first cusp
index (0-based) whose arc contains the normalized longitude, plus one;
fallback house 1 when no arc matches.  Identical in both calculator
classes (the transit calculator also returns display fields derived from
the same index). -/
def determinePlanetHouse (planetLongitude : ℚ) (cusps : List ℚ) : ℕ :=
  let normalizedLong := normalize360 planetLongitude
  match (List.range 12).find? (fun i => houseMatch normalizedLong cusps i) with
  | some i => i + 1
  | none => 1

/-- Per-body `{major, minor}` orb record. -/
structure OrbPair where
  major : ℚ
  minor : ℚ
deriving DecidableEq, Repr

/-- One catalog entry of `transitAspects` (symbol field omitted: display only). -/
structure AspectDef where
  name : String
  angle : ℚ
deriving DecidableEq, Repr

/-- `majorAspects` list, identical in both classes. -/
def majorAspects : List String :=
  ["conjunction", "opposition", "trine", "square", "sextile"]

/-- `transitAspects` catalog as `Object.entries` yields it, in entry
order: the upper-case object key paired with the entry record.  Identical
in both classes. -/
def transitAspects : List (String × AspectDef) :=
  [("CONJUNCTION", ⟨"conjunction", 0⟩), ("OPPOSITION", ⟨"opposition", 180⟩),
   ("TRINE", ⟨"trine", 120⟩), ("SQUARE", ⟨"square", 90⟩), ("SEXTILE", ⟨"sextile", 60⟩)]

end AstroDraw

namespace TransitCalculator

open AstroDraw

/-- `transitOrbs` table of the transit calculator (upper-case body keys). -/
def transitOrbs : String → Option OrbPair
  | "SATURN" => some ⟨2, 1⟩
  | "URANUS" => some ⟨2, 1⟩
  | "NEPTUNE" => some ⟨2, 1⟩
  | "PLUTO" => some ⟨2, 1⟩
  | "JUPITER" => some ⟨3/2, 1/2⟩
  | "SUN" => some ⟨1, 1/2⟩
  | "MOON" => some ⟨1, 1/2⟩
  | "MERCURY" => some ⟨1, 1/2⟩
  | "VENUS" => some ⟨1, 1/2⟩
  | "MARS" => some ⟨1, 1/2⟩
  | "NORTH_NODE" => some ⟨1, 1/2⟩
  | "CHIRON" => some ⟨1, 1/2⟩
  | "LILITH" => some ⟨1, 1/2⟩
  | _ => none

/-- `getTransitOrb(transitPlanet, aspectName)`: tabulated orbs, default
`{major: 1, minor: 0.5}` for bodies absent from the table; major orb for
major aspects, else minor. -/
def getTransitOrb (transitPlanet : String) (aspectName : String) : ℚ :=
  let planetOrbs := (transitOrbs transitPlanet).getD ⟨1, 1/2⟩
  if majorAspects.contains aspectName then planetOrbs.major else planetOrbs.minor

/-- Result record of `findTransitAspect`. -/
structure AspectData where
  aspect : AspectDef
  orb : ℚ
  exactness : ℚ
  targetAngle : ℚ
deriving DecidableEq, Repr

/-- `findTransitAspect(transitLong, natalLong, transitPlanet)`: first
catalog entry (in entry order) whose angular difference is within the
applicable orb, or none.  The loop header destructures
`Object.entries(this.transitAspects)` as `[aspectName, aspectData]` and
passes `aspectName` — the upper-case entry key — to `getTransitOrb`, so
the key is never found in the lower-case `majorAspects` list and the
minor orb applies to every catalog aspect. -/
def findTransitAspect (transitLong natalLong : ℚ) (transitPlanet : String) :
    Option AspectData :=
  let angle := calculateAngleBetweenPlanets transitLong natalLong
  transitAspects.findSome? fun entry =>
    let aspectName := entry.1
    let aspectData := entry.2
    let orb := getTransitOrb transitPlanet aspectName
    let angleDiff := |angle - aspectData.angle|
    if angleDiff ≤ orb then
      some ⟨aspectData, angleDiff, ((orb - angleDiff) / orb) * 100, aspectData.angle⟩
    else none

end TransitCalculator

namespace AstroDraw

/-- The positional fields of one body that the aspect engine reads
(`longitude`, `longitudeSpeed`, and the derived `sign`/`house` carried
into aspect records; remaining fields of the source record are display
strings). -/
structure Position where
  longitude : ℚ
  longitudeSpeed : ℚ
  sign : String := ""
  house : ℕ := 0
deriving DecidableEq, Repr

end AstroDraw

namespace TransitCalculator

open AstroDraw

/-- `isTransitApplying(transitPos, natalPos, targetAngle)`: project the
transiting body one day forward by its signed speed, partner fixed;
applying iff the future angle is strictly closer to the target. -/
def isTransitApplying (transitPos natalPos : Position) (targetAngle : ℚ) : Bool :=
  let speed := transitPos.longitudeSpeed
  let currentAngle := calculateAngleBetweenPlanets transitPos.longitude natalPos.longitude
  let futureTransitLong := jsRem (transitPos.longitude + speed) 360
  let futureAngle := calculateAngleBetweenPlanets futureTransitLong natalPos.longitude
  decide (|futureAngle - targetAngle| < |currentAngle - targetAngle|)

/-- A JavaScript `Date` stores an integral number of milliseconds: the
constructor truncates its numeric argument toward zero. -/
def dateFromMs (t : ℚ) : ℚ :=
  (truncQ t : ℚ)

/-- `estimatePeakDate(transitPos, natalPos, targetAngle, currentDate)` of
the transit calculator: none for stationary bodies (|speed| < 0.001°/day),
none when the linear extrapolation lands more than 365 days away, else the
current date advanced by `daysToExact` days.  Dates are millisecond counts. -/
def estimatePeakDate (transitPos natalPos : Position) (targetAngle currentDate : ℚ) :
    Option ℚ :=
  if |transitPos.longitudeSpeed| < 1/1000 then none
  else
    let currentAngle := calculateAngleBetweenPlanets transitPos.longitude natalPos.longitude
    let angleDifference := targetAngle - currentAngle
    let adjustedDiff :=
      if |angleDifference| > 180 then
        if angleDifference > 0 then angleDifference - 360 else angleDifference + 360
      else angleDifference
    let daysToExact := adjustedDiff / transitPos.longitudeSpeed
    if |daysToExact| > 365 then none
    else some (dateFromMs (currentDate + daysToExact * (24 * 60 * 60 * 1000)))

/-- The `while (high - low > precisionMs)` bisection loop of
`findExactMoment`, with explicit fuel (the loop narrows the bracket by at
least one millisecond per pass whenever `precisionMs ≥ 1`, so fuel
`high − low` is enough; instants are nonnegative millisecond counts and
the JS midpoint `new Date((low + high) / 2)` truncates, which is `Nat`
division here). -/
def bisectLoop (checkFunction : ℕ → Bool) (precisionMs : ℕ) :
    ℕ → ℕ → ℕ → ℕ
  | 0, low, _ => low
  | fuel + 1, low, high =>
    if high - low > precisionMs then
      let mid := (low + high) / 2
      if checkFunction mid then bisectLoop checkFunction precisionMs fuel low mid
      else bisectLoop checkFunction precisionMs fuel mid high
    else low

/-- `findExactMoment(startDate, endDate, checkFunction, precision)`:
return `startDate` when the event already holds there; none when it does
not hold at `endDate`; otherwise bisect until the bracket is at most
`precision` minutes wide and return the lower end. -/
def findExactMoment (startDate endDate : ℕ) (checkFunction : ℕ → Bool)
    (precision : ℕ) : Option ℕ :=
  let precisionMs := precision * 60 * 1000
  if checkFunction startDate then some startDate
  else if !checkFunction endDate then none
  else some (bisectLoop checkFunction precisionMs (endDate - startDate) startDate endDate)

/-- `updateTransitSummary`'s counter fields (`byAspect` and the per-planet
histograms are name-indexed counters). -/
structure TransitSummary where
  total : ℕ
  applying : ℕ
  separating : ℕ
  exact : ℕ
  byAspect : String → ℕ
  byTransitingPlanet : String → ℕ
  byNatalPlanet : String → ℕ

/-- The empty summary `calculateTransits` starts from. -/
def emptySummary : TransitSummary :=
  ⟨0, 0, 0, 0, fun _ => 0, fun _ => 0, fun _ => 0⟩

/-- One aspect record pushed by `calculateTransits`. -/
structure TransitAspect where
  transitingPlanet : String
  transitingSign : String
  natalPlanet : String
  natalSign : String
  aspect : String
  orb : ℚ
  exactness : ℚ
  applying : Bool
  peakDate : Option ℚ
deriving DecidableEq, Repr

/-- `updateTransitSummary(summary, aspect)`: bump total, the
applying/separating split, the exact counter (orb strictly below 0.5°),
and the three histograms.  One modelling note: the source reads
`aspect.aspect.name` although `aspect.aspect` is already the name string,
so its `byAspect` histogram actually tallies every aspect under the one
key `undefined`; the model keys by the name itself.  The discrepancy is
confined to `byAspect`, which no theorem in this file mentions. -/
def updateTransitSummary (summary : TransitSummary) (aspect : TransitAspect) :
    TransitSummary where
  total := summary.total + 1
  applying := if aspect.applying then summary.applying + 1 else summary.applying
  separating := if aspect.applying then summary.separating else summary.separating + 1
  exact := if aspect.orb < 1/2 then summary.exact + 1 else summary.exact
  byAspect := fun n =>
    if n = aspect.aspect then summary.byAspect n + 1 else summary.byAspect n
  byTransitingPlanet := fun n =>
    if n = aspect.transitingPlanet then summary.byTransitingPlanet n + 1
    else summary.byTransitingPlanet n
  byNatalPlanet := fun n =>
    if n = aspect.natalPlanet then summary.byNatalPlanet n + 1 else summary.byNatalPlanet n

/-- The aspect record built inside the double loop of `calculateTransits`
for one (transiting, natal) pair that matched. -/
def mkTransitAspect (transitPlanet : String) (transitPos : Position)
    (natalPlanet : String) (natalPos : Position) (aspectData : AspectData)
    (transitDate : ℚ) : TransitAspect where
  transitingPlanet := transitPlanet
  transitingSign := transitPos.sign
  natalPlanet := natalPlanet
  natalSign := natalPos.sign
  aspect := aspectData.aspect.name
  orb := aspectData.orb
  exactness := aspectData.exactness
  applying := isTransitApplying transitPos natalPos aspectData.targetAngle
  peakDate := estimatePeakDate transitPos natalPos aspectData.targetAngle transitDate

/-- The aspect list accumulated by `calculateTransits`' nested loops, in
push order: transiting bodies outer, natal bodies inner. -/
def buildTransitAspects (transitPositions natalPositions : List (String × Position))
    (transitDate : ℚ) : List TransitAspect :=
  transitPositions.flatMap fun tp =>
    natalPositions.filterMap fun np =>
      (findTransitAspect tp.2.longitude np.2.longitude tp.1).map fun aspectData =>
        mkTransitAspect tp.1 tp.2 np.1 np.2 aspectData transitDate

/-- The aspect-list/summary part of `calculateTransits`' result.  The
positions themselves come from the ephemeris provider (out of scope) and
are taken as inputs; each matched aspect is pushed and folded through
`updateTransitSummary`, then the list is sorted ascending by orb
(JavaScript's `Array#sort` is a stable sort of the pushed list). -/
def calculateTransits (transitPositions natalPositions : List (String × Position))
    (transitDate : ℚ) : List TransitAspect × TransitSummary :=
  let built := buildTransitAspects transitPositions natalPositions transitDate
  (built.insertionSort (fun a b => a.orb ≤ b.orb),
   built.foldl updateTransitSummary emptySummary)

end TransitCalculator

namespace AstrologicalCalculator

open AstroDraw

/-- `transitOrbs` table of the consolidated calculator (mixed-case body keys). -/
def transitOrbs : String → Option OrbPair
  | "Saturn" => some ⟨2, 1⟩
  | "Uranus" => some ⟨2, 1⟩
  | "Neptune" => some ⟨2, 1⟩
  | "Pluto" => some ⟨2, 1⟩
  | "Jupiter" => some ⟨3/2, 1/2⟩
  | "Sun" => some ⟨1, 1/2⟩
  | "Moon" => some ⟨1, 1/2⟩
  | "Mercury" => some ⟨1, 1/2⟩
  | "Venus" => some ⟨1, 1/2⟩
  | "Mars" => some ⟨1, 1/2⟩
  | "NNode" => some ⟨1, 1/2⟩
  | "SNode" => some ⟨1, 1/2⟩
  | "Chiron" => some ⟨1, 1/2⟩
  | "Lilith" => some ⟨1, 1/2⟩
  | _ => none

/-- `getTransitOrb(transitPlanet, aspectName)` of the consolidated
calculator: same rule as the transit calculator over its own table. -/
def getTransitOrb (transitPlanet : String) (aspectName : String) : ℚ :=
  let planetOrbs := (transitOrbs transitPlanet).getD ⟨1, 1/2⟩
  if majorAspects.contains aspectName then planetOrbs.major else planetOrbs.minor

/-- Result record of the consolidated calculator's `findTransitAspect`
(no exactness percentage in this variant). -/
structure AspectData where
  aspect : AspectDef
  orb : ℚ
  targetAngle : ℚ
deriving DecidableEq, Repr

/-- `findTransitAspect` of the consolidated calculator: first catalog
entry within the applicable orb, in entry order.  Unlike the transit
calculator's variant, this one passes `aspectData.name` (the lower-case
aspect name) to `getTransitOrb`, so the major orb applies to the five
catalog aspects. -/
def findTransitAspect (transitLong natalLong : ℚ) (transitPlanet : String) :
    Option AspectData :=
  let angle := calculateAngleBetweenPlanets transitLong natalLong
  transitAspects.findSome? fun entry =>
    let aspectData := entry.2
    let orb := getTransitOrb transitPlanet aspectData.name
    let angleDiff := |angle - aspectData.angle|
    if angleDiff ≤ orb then some ⟨aspectData, angleDiff, aspectData.angle⟩ else none

/-- `isTransitApplying` of the consolidated calculator: hourly projection
(`speed / 24`), partner fixed; applying iff strictly closer to target. -/
def isTransitApplying (transitPos natalPos : Position) (targetAngle : ℚ) : Bool :=
  let speed := transitPos.longitudeSpeed
  let currentAngle := calculateAngleBetweenPlanets transitPos.longitude natalPos.longitude
  let futureTransitLong := jsRem (transitPos.longitude + speed / 24) 360
  let futureAngle := calculateAngleBetweenPlanets futureTransitLong natalPos.longitude
  decide (|futureAngle - targetAngle| < |currentAngle - targetAngle|)

/-- `estimatePeakDate` of the consolidated calculator: identical to the
transit calculator's except the actionability bound is five years
(`365 * 5` days). -/
def estimatePeakDate (transitPos natalPos : Position) (targetAngle currentDate : ℚ) :
    Option ℚ :=
  if |transitPos.longitudeSpeed| < 1/1000 then none
  else
    let currentAngle := calculateAngleBetweenPlanets transitPos.longitude natalPos.longitude
    let angleDifference := targetAngle - currentAngle
    let adjustedDiff :=
      if |angleDifference| > 180 then
        if angleDifference > 0 then angleDifference - 360 else angleDifference + 360
      else angleDifference
    let daysToExact := adjustedDiff / transitPos.longitudeSpeed
    if |daysToExact| > 365 * 5 then none
    else some (TransitCalculator.dateFromMs
      (currentDate + daysToExact * (24 * 60 * 60 * 1000)))

/-- `Number#toFixed(2)` followed by `parseFloat`: round to the nearest
hundredth (the source's orbs are nonnegative, where `toFixed` rounds half
up). -/
def toFixed2 (q : ℚ) : ℚ :=
  (round (q * 100) : ℤ) / 100

/-- The signed longitude-difference fold of `findSolarReturnMoment`:
`> 180 ⇒ −360`, `< −180 ⇒ +360`, landing in `(−180, 180]`. -/
def srmFold (d : ℚ) : ℚ :=
  if d > 180 then d - 360 else if d < -180 then d + 360 else d

/-- The ephemeris provider consumed by the solar-return solver: Julian day
to `(longitude, longitudeSpeed)`, or `none` for an invalid result flag. -/
abbrev Ephemeris := ℚ → Option (ℚ × ℚ)

/-- The `for (let i = 0; i < maxIterations; i++)` loop body of
`findSolarReturnMoment`: query the ephemeris at the current estimate,
fold the signed difference to the target, return the estimate when
`|diff| < 1e-5`, throw when the ephemeris fails or the speed is below
`1e-4`, else advance the estimate by `diff / speed` days; return the last
estimate when the fuel (iteration budget) runs out. -/
def srmLoop (eph : Ephemeris) (targetLongitude : ℚ) :
    ℕ → ℚ → Except String ℚ
  | 0, searchJD => .ok searchJD
  | n + 1, searchJD =>
    match eph searchJD with
    | none => .error "Failed to calculate Sun position during search"
    | some (currentLongitude, sunSpeed) =>
      let longitudeDiff := srmFold (targetLongitude - currentLongitude)
      if |longitudeDiff| < 1/100000 then .ok searchJD
      else if |sunSpeed| < 1/10000 then .error "Sun speed too small for calculation"
      else srmLoop eph targetLongitude n (searchJD + longitudeDiff / sunSpeed)

/-- `findSolarReturnMoment(natalSunLongitude, year, birthDate)` with the
initial-guess construction (birth month/day/time in the target year) and
the Julian-day/date conversions delegated to collaborators: the solver
itself iterates at most `maxIterations = 20` times from the starting
estimate. -/
def findSolarReturnMoment (eph : Ephemeris) (natalSunLongitude searchJD : ℚ) :
    Except String ℚ :=
  srmLoop eph natalSunLongitude 20 searchJD

/-- One Newton update of the solar-return solver (identity when the
ephemeris fails there, a case the solver turns into an error anyway). -/
def srmNext (eph : Ephemeris) (target : ℚ) (jd : ℚ) : ℚ :=
  match eph jd with
  | some (lon, speed) => jd + srmFold (target - lon) / speed
  | none => jd

/-- `k`-fold iteration of the solar-return Newton update. -/
def srmIterate (eph : Ephemeris) (target : ℚ) : ℕ → ℚ → ℚ
  | 0, jd => jd
  | k + 1, jd => srmIterate eph target k (srmNext eph target jd)

/-- The folded signed difference to the target at an estimate (0 when the
ephemeris fails there). -/
def srmDiff (eph : Ephemeris) (target : ℚ) (jd : ℚ) : ℚ :=
  match eph jd with
  | some (lon, _) => srmFold (target - lon)
  | none => 0

/-- One side of an aspect record built by `calculateAspectsOfTwoCharts`. -/
structure ChartRef where
  planet : String
  sign : String
  house : ℕ
  longitude : ℚ
deriving DecidableEq, Repr

/-- One aspect record of `calculateAspectsOfTwoCharts` (the display-only
`title` string is omitted; `applying`/`peakDate` are attached only in
transit mode). -/
structure PairAspect where
  aspect : String
  orb : ℚ
  side1 : ChartRef
  side2 : ChartRef
  applying : Option Bool
  peakDate : Option (Option ℚ)
deriving DecidableEq, Repr

/-- `calculateAspectsOfTwoCharts(transitPositions, natalPositions, ...,
isTransit, transitDate)`: all matched pairs in enumeration order
(transiting outer, natal inner).  The function returns this list directly:
its `return aspects.sort((a, b) => a.orb - b.orb)` statement sits after an
unconditional `return aspects` and is unreachable. -/
def calculateAspectsOfTwoCharts (transitPositions natalPositions : List (String × Position))
    (isTransit : Bool) (transitDate : ℚ) : List PairAspect :=
  transitPositions.flatMap fun tp =>
    natalPositions.filterMap fun np =>
      (findTransitAspect tp.2.longitude np.2.longitude tp.1).map fun aspectData =>
        { aspect := aspectData.aspect.name
          orb := toFixed2 aspectData.orb
          side1 := ⟨tp.1, tp.2.sign, tp.2.house, tp.2.longitude⟩
          side2 := ⟨np.1, np.2.sign, np.2.house, np.2.longitude⟩
          applying :=
            if isTransit then some (isTransitApplying tp.2 np.2 aspectData.targetAngle)
            else none
          peakDate :=
            if isTransit then some (estimatePeakDate tp.2 np.2 aspectData.targetAngle transitDate)
            else none }

end AstrologicalCalculator

namespace AstroUtils

/-- One natal-aspect record as consumed by `filterAspects` (the fields the
filter reads; records built by `calculateNatalAspects` always carry them). -/
structure NatalAspectRec where
  planet1 : String
  planet2 : String
  aspect : String
  angle : ℚ
  orb : ℚ
deriving DecidableEq, Repr

/-- `isCompatibleByElement(sign1, sign2)`: both signs inside one of the
four element groups. -/
def isCompatibleByElement (sign1 sign2 : String) : Bool :=
  let groups := [["Aries", "Leo", "Sagittarius"],
                 ["Taurus", "Virgo", "Capricorn"],
                 ["Gemini", "Libra", "Aquarius"],
                 ["Cancer", "Scorpio", "Pisces"]]
  groups.any fun group => group.contains sign1 && group.contains sign2

/-- `isCompatibleByPolarity(sign1, sign2)`: both signs inside the Yang or
both inside the Yin group. -/
def isCompatibleByPolarity (sign1 sign2 : String) : Bool :=
  let groups := [["Aries", "Gemini", "Leo", "Libra", "Sagittarius", "Aquarius"],
                 ["Taurus", "Cancer", "Virgo", "Scorpio", "Capricorn", "Pisces"]]
  groups.any fun group => group.contains sign1 && group.contains sign2

/-- `filterAspects(inputAspects, positions)` of `astroUtils`: drop
North-Node oppositions, squares between element-compatible signs, trines
between element-incompatible signs, sextiles between polarity-incompatible
signs, and conjunctions between different signs; keep the rest.  The
function is declared with exactly these two parameters.  `positions` is
consulted only for each planet's sign (`signOf`). -/
def filterAspects (inputAspects : List NatalAspectRec) (signOf : String → String) :
    List NatalAspectRec :=
  inputAspects.filter fun aspect =>
    let sign1 := signOf aspect.planet1
    let sign2 := signOf aspect.planet2
    let aspectName := aspect.aspect
    !(aspect.planet1 == "NNode" && aspectName == "opposition") &&
    !(aspectName == "square" && isCompatibleByElement sign1 sign2) &&
    !(aspectName == "trine" && !isCompatibleByElement sign1 sign2) &&
    !(aspectName == "sextile" && !isCompatibleByPolarity sign1 sign2) &&
    !(aspectName == "conjunction" && sign1 != sign2)

end AstroUtils

namespace AstrologicalCalculator

/-- The aspect-filter stage inside `generateChart`:
`aspects = filterAspects(aspects, { ...planets, ...angles },
this.considerAspectsCompatibility)`.  `filterAspects` is declared with two
parameters, so JavaScript silently drops the flag argument at this call
boundary; the definition mirrors that call shape. -/
def generateChartFilterStage (considerAspectsCompatibility : Bool)
    (aspects : List AstroUtils.NatalAspectRec) (signOf : String → String) :
    List AstroUtils.NatalAspectRec :=
  AstroUtils.filterAspects aspects signOf

end AstrologicalCalculator

namespace AstroDraw

/-- A JavaScript number as the geometry functions see it: a rational, or
`none` for `NaN` (which is also what `undefined` becomes as soon as it
enters arithmetic, e.g. a missing `longitudeSpeed` field). -/
abbrev JSNum := Option ℚ

/-- `NaN`-propagating addition. -/
def jsAddN : JSNum → JSNum → JSNum
  | some a, some b => some (a + b)
  | _, _ => none

/-- `NaN`-propagating subtraction. -/
def jsSubN : JSNum → JSNum → JSNum
  | some a, some b => some (a - b)
  | _, _ => none

/-- `NaN`-propagating multiplication (the `0 * Infinity` corner producing
`NaN` from finite inputs does not arise: both factors here are finite). -/
def jsMulN : JSNum → JSNum → JSNum
  | some a, some b => some (a * b)
  | _, _ => none

/-- `NaN`-propagating division.  A zero divisor yields `Infinity` in
JavaScript, which this model does not represent; every division in the
embedded functions sits behind a nonzero-divisor guard, and the zero case
is mapped to the absorbing element. -/
def jsDivN : JSNum → JSNum → JSNum
  | some a, some b => if b = 0 then none else some (a / b)
  | _, _ => none

/-- `Math.abs` with `NaN` propagation. -/
def jsAbsN : JSNum → JSNum
  | some a => some |a|
  | none => none

/-- `%` with `NaN` propagation (`x % 0` is `NaN` in JavaScript). -/
def jsRemN : JSNum → JSNum → JSNum
  | some a, some b => if b = 0 then none else some (jsRem a b)
  | _, _ => none

/-- JavaScript `<`: false whenever either operand is `NaN`. -/
def jsLtN : JSNum → JSNum → Bool
  | some a, some b => decide (a < b)
  | _, _ => false

/-- A position record as the JavaScript functions receive it: either field
may be `NaN`/missing (the transit calculator's own
`calculatePlanetaryPositions` builds records with no `longitudeSpeed` at
all, its speed line being commented out). -/
structure PositionJS where
  longitude : JSNum
  longitudeSpeed : JSNum
deriving DecidableEq, Repr

/-- `calculateAngleBetweenPlanets` under JavaScript number semantics. -/
def calculateAngleBetweenPlanetsJS (long1 long2 : JSNum) : JSNum :=
  let angle := jsAbsN (jsSubN long1 long2)
  if jsLtN (some 180) angle then jsSubN (some 360) angle else angle

/-- A JavaScript `Date` built from a `NaN` time value is an Invalid Date
(time value `NaN`), not an error and not `null`. -/
def jsDateFromMsN (t : JSNum) : JSNum :=
  t.map fun q => (truncQ q : ℚ)

end AstroDraw

namespace TransitCalculator

open AstroDraw

/-- `isTransitApplying` under JavaScript number semantics: what the
function actually returns when a `NaN`/missing speed or longitude flows in. -/
def isTransitApplyingJS (transitPos natalPos : PositionJS) (targetAngle : JSNum) : Bool :=
  let speed := transitPos.longitudeSpeed
  let currentAngle := calculateAngleBetweenPlanetsJS transitPos.longitude natalPos.longitude
  let futureTransitLong := jsRemN (jsAddN transitPos.longitude speed) (some 360)
  let futureAngle := calculateAngleBetweenPlanetsJS futureTransitLong natalPos.longitude
  jsLtN (jsAbsN (jsSubN futureAngle targetAngle)) (jsAbsN (jsSubN currentAngle targetAngle))

/-- `estimatePeakDate` under JavaScript number semantics.  The outer
`Option` is the source's `null` return; the inner `JSNum` is the `Date`'s
time value, `none` for an Invalid Date. -/
def estimatePeakDateJS (transitPos natalPos : PositionJS) (targetAngle currentDate : JSNum) :
    Option JSNum :=
  if jsLtN (jsAbsN transitPos.longitudeSpeed) (some (1/1000)) then none
  else
    let currentAngle := calculateAngleBetweenPlanetsJS transitPos.longitude natalPos.longitude
    let angleDifference := jsSubN targetAngle currentAngle
    let adjustedDiff :=
      if jsLtN (some 180) (jsAbsN angleDifference) then
        if jsLtN (some 0) angleDifference then jsSubN angleDifference (some 360)
        else jsAddN angleDifference (some 360)
      else angleDifference
    let daysToExact := jsDivN adjustedDiff transitPos.longitudeSpeed
    if jsLtN (some 365) (jsAbsN daysToExact) then none
    else some (jsDateFromMsN (jsAddN currentDate (jsMulN daysToExact (some (24 * 60 * 60 * 1000)))))

end TransitCalculator

namespace AstroDraw

/-- The `daysToExact` expression shared by both `estimatePeakDate`
variants: the signed angle difference to the target, folded into
`(−180, 180]`, divided by the moving body's signed speed. -/
def peakDaysToExact (transitPos natalPos : Position) (targetAngle : ℚ) : ℚ :=
  let currentAngle := calculateAngleBetweenPlanets transitPos.longitude natalPos.longitude
  let angleDifference := targetAngle - currentAngle
  let adjustedDiff :=
    if |angleDifference| > 180 then
      if angleDifference > 0 then angleDifference - 360 else angleDifference + 360
    else angleDifference
  adjustedDiff / transitPos.longitudeSpeed

instance instIsTotalTransitAspectOrb :
    IsTotal TransitCalculator.TransitAspect (fun a b => a.orb ≤ b.orb) :=
  ⟨fun a b => le_total a.orb b.orb⟩

instance instIsTransTransitAspectOrb :
    IsTrans TransitCalculator.TransitAspect (fun a b => a.orb ≤ b.orb) :=
  ⟨fun _ _ _ => le_trans⟩

@[simp] lemma jsAddN_none_right (x : JSNum) : jsAddN x none = none := by
  cases x <;> rfl

@[simp] lemma jsSubN_none_left (y : JSNum) : jsSubN none y = none := by
  cases y <;> rfl

@[simp] lemma jsSubN_none_right (x : JSNum) : jsSubN x none = none := by
  cases x <;> rfl

@[simp] lemma jsMulN_none_left (y : JSNum) : jsMulN none y = none := by
  cases y <;> rfl

@[simp] lemma jsDivN_none_right (x : JSNum) : jsDivN x none = none := by
  cases x <;> rfl

@[simp] lemma jsRemN_none_left (y : JSNum) : jsRemN none y = none := by
  cases y <;> rfl

@[simp] lemma jsAbsN_none : jsAbsN none = none := rfl

@[simp] lemma jsLtN_none_left (y : JSNum) : jsLtN none y = false := by
  cases y <;> rfl

@[simp] lemma jsLtN_none_right (x : JSNum) : jsLtN x none = false := by
  cases x <;> rfl

@[simp] lemma jsDateFromMsN_none : jsDateFromMsN none = none := rfl

end AstroDraw

open AstroDraw

/-- C3 counterexample: the claim makes a listed body's tabulated major
orb the applicable orb for the five major aspects; but at longitudes 0°
and 91.5° against "SATURN" — tabulated `{major: 2, minor: 1}`, angular
difference 1.5° to the square at 90°, within the major orb — the transit
calculator's matcher returns none, because its loop passes the upper-case
entry key to `getTransitOrb`, which therefore selects the minor orb (1°). -/
theorem c3_counterexample :
    TransitCalculator.findTransitAspect 0 (183/2) "SATURN" = none ∧
    TransitCalculator.transitOrbs "SATURN" = some ⟨2, 1⟩ ∧
    ("SQUARE", (⟨"square", 90⟩ : AspectDef)) ∈ transitAspects ∧
    "square" ∈ majorAspects ∧
    |calculateAngleBetweenPlanets 0 (183/2) - 90| ≤ 2 := by
  with_unfolding_all decide

/-- C3 amended: the transit calculator's `findTransitAspect` returns a
match only when |angleBetween − targetAngle| is within the applicable orb
(recording that difference as the orb) and none when every catalog angle
is farther than its orb; but the applicable orb is always the per-body
MINOR orb — the loop passes the upper-case catalog entry key to
`getTransitOrb` and the major-aspect list holds lower-case names — so
listed bodies get their tabulated minor value (exactly 1° for the outer
bodies Saturn/Uranus/Neptune/Pluto, at most 1° overall), and only bodies
absent from the table receive the default `{major: 1, minor: 0.5}`,
effectively 0.5°. -/
theorem c3_findTransitAspect_minor_orb_containment :
    (∀ (transitLong natalLong : ℚ) (p : String) (m : TransitCalculator.AspectData),
      TransitCalculator.findTransitAspect transitLong natalLong p = some m →
      ∃ e ∈ transitAspects, m.aspect = e.2 ∧ m.targetAngle = e.2.angle ∧
        m.orb = |calculateAngleBetweenPlanets transitLong natalLong - e.2.angle| ∧
        m.orb ≤ TransitCalculator.getTransitOrb p e.1) ∧
    (∀ (transitLong natalLong : ℚ) (p : String),
      (∀ e ∈ transitAspects,
        TransitCalculator.getTransitOrb p e.1 <
          |calculateAngleBetweenPlanets transitLong natalLong - e.2.angle|) →
      TransitCalculator.findTransitAspect transitLong natalLong p = none) ∧
    (∀ (p : String), ∀ e ∈ transitAspects,
      TransitCalculator.getTransitOrb p e.1 =
        ((TransitCalculator.transitOrbs p).getD ⟨1, 1/2⟩).minor) ∧
    (∀ (p : String) (o : OrbPair), TransitCalculator.transitOrbs p = some o →
      o.minor ≤ 1) ∧
    (TransitCalculator.transitOrbs "SATURN" = some ⟨2, 1⟩ ∧
     TransitCalculator.transitOrbs "URANUS" = some ⟨2, 1⟩ ∧
     TransitCalculator.transitOrbs "NEPTUNE" = some ⟨2, 1⟩ ∧
     TransitCalculator.transitOrbs "PLUTO" = some ⟨2, 1⟩) ∧
    (∀ (p : String), TransitCalculator.transitOrbs p = none →
      ∀ e ∈ transitAspects, TransitCalculator.getTransitOrb p e.1 = 1/2) := by
  refine ⟨?_, ?_, ?_, ?_, ⟨rfl, rfl, rfl, rfl⟩, ?_⟩
  · intro a b p m h
    simp only [TransitCalculator.findTransitAspect] at h
    obtain ⟨e, he, hfe⟩ := List.exists_of_findSome?_eq_some h
    by_cases hle :
        |calculateAngleBetweenPlanets a b - e.2.angle| ≤ TransitCalculator.getTransitOrb p e.1
    · rw [if_pos hle] at hfe
      cases hfe
      exact ⟨e, he, rfl, rfl, rfl, hle⟩
    · rw [if_neg hle] at hfe
      exact absurd hfe (by simp)
  · intro a b p h
    simp only [TransitCalculator.findTransitAspect]
    refine List.findSome?_eq_none_iff.mpr fun e he => ?_
    exact if_neg (not_le.mpr (h e he))
  · intro p e he
    fin_cases he <;>
      · simp only [TransitCalculator.getTransitOrb]
        rw [if_neg (by with_unfolding_all decide)]
  · intro p o ho
    revert ho
    simp only [TransitCalculator.transitOrbs]
    split <;> intro ho <;> cases ho <;> norm_num
  · intro p hp e he
    fin_cases he <;>
      · simp only [TransitCalculator.getTransitOrb, hp, Option.getD_none]
        rw [if_neg (by with_unfolding_all decide)]

/-- C3 witness: at longitudes 10° and 55° (angle 45°, farther than every
applicable orb) the matcher returns none, via the amended theorem's
no-match direction. -/
theorem c3_witness : TransitCalculator.findTransitAspect 10 55 "SATURN" = none :=
  c3_findTransitAspect_minor_orb_containment.2.1 10 55 "SATURN"
    (by with_unfolding_all decide)

/-- C5 (code bug): the element/polarity compatibility filter is applied
whatever the `considerAspectsCompatibility` flag is — `filterAspects` is
declared with two parameters and the flag argument is dropped at the
`generateChart` call boundary — so with the flag unset, a square between
two fire signs (Aries/Leo) is still suppressed. -/
theorem c5_compatibility_filter_ignores_flag :
    AstrologicalCalculator.generateChartFilterStage false
      [⟨"Sun", "Mars", "square", 90, 2⟩]
      (fun p => if p = "Sun" then "Aries" else "Leo") = [] ∧
    ∀ (flag1 flag2 : Bool) (aspects : List AstroUtils.NatalAspectRec)
      (signOf : String → String),
      AstrologicalCalculator.generateChartFilterStage flag1 aspects signOf =
      AstrologicalCalculator.generateChartFilterStage flag2 aspects signOf := by
  exact ⟨by with_unfolding_all decide, fun _ _ _ _ => rfl⟩

/-- C6: both `isTransitApplying` variants return true exactly when
projecting the moving body forward by its own signed speed (one day in the
transit calculator, one hour in the consolidated calculator), partner
fixed, brings the folded angle strictly closer to the target; the body at
15° with speed +1°/day against a fixed partner at 105° (exact square) is
separating in both variants. -/
theorem c6_isTransitApplying_strictly_closer :
    (∀ (transitPos natalPos : Position) (targetAngle : ℚ),
      TransitCalculator.isTransitApplying transitPos natalPos targetAngle = true ↔
      |calculateAngleBetweenPlanets
          (jsRem (transitPos.longitude + transitPos.longitudeSpeed) 360)
          natalPos.longitude - targetAngle| <
      |calculateAngleBetweenPlanets transitPos.longitude natalPos.longitude -
          targetAngle|) ∧
    (∀ (transitPos natalPos : Position) (targetAngle : ℚ),
      AstrologicalCalculator.isTransitApplying transitPos natalPos targetAngle = true ↔
      |calculateAngleBetweenPlanets
          (jsRem (transitPos.longitude + transitPos.longitudeSpeed / 24) 360)
          natalPos.longitude - targetAngle| <
      |calculateAngleBetweenPlanets transitPos.longitude natalPos.longitude -
          targetAngle|) ∧
    TransitCalculator.isTransitApplying ⟨15, 1, "", 0⟩ ⟨105, 0, "", 0⟩ 90 = false ∧
    AstrologicalCalculator.isTransitApplying ⟨15, 1, "", 0⟩ ⟨105, 0, "", 0⟩ 90 = false := by
  refine ⟨?_, ?_, by with_unfolding_all decide, by with_unfolding_all decide⟩
  · intro tp np t
    simp [TransitCalculator.isTransitApplying]
  · intro tp np t
    simp [AstrologicalCalculator.isTransitApplying]

/-- C8: both `estimatePeakDate` variants return none for a stationary body
(|speed| < 0.001°/day), none when the single linear extrapolation
`daysToExact = foldedAngleDiff / speed` exceeds the actionability bound
(365 days in the transit calculator, five years in the consolidated one),
and otherwise the as-of date advanced by `daysToExact` days. -/
theorem c8_estimatePeakDate_spec :
    ∀ (transitPos natalPos : Position) (targetAngle asOf : ℚ),
      (|transitPos.longitudeSpeed| < 1/1000 →
        TransitCalculator.estimatePeakDate transitPos natalPos targetAngle asOf = none ∧
        AstrologicalCalculator.estimatePeakDate transitPos natalPos targetAngle asOf = none) ∧
      (¬ |transitPos.longitudeSpeed| < 1/1000 →
        (365 < |peakDaysToExact transitPos natalPos targetAngle| →
          TransitCalculator.estimatePeakDate transitPos natalPos targetAngle asOf = none) ∧
        (¬ 365 < |peakDaysToExact transitPos natalPos targetAngle| →
          TransitCalculator.estimatePeakDate transitPos natalPos targetAngle asOf =
            some (TransitCalculator.dateFromMs
              (asOf + peakDaysToExact transitPos natalPos targetAngle *
                (24 * 60 * 60 * 1000)))) ∧
        (365 * 5 < |peakDaysToExact transitPos natalPos targetAngle| →
          AstrologicalCalculator.estimatePeakDate transitPos natalPos targetAngle asOf =
            none) ∧
        (¬ 365 * 5 < |peakDaysToExact transitPos natalPos targetAngle| →
          AstrologicalCalculator.estimatePeakDate transitPos natalPos targetAngle asOf =
            some (TransitCalculator.dateFromMs
              (asOf + peakDaysToExact transitPos natalPos targetAngle *
                (24 * 60 * 60 * 1000))))) := by
  intro tp np t asOf
  constructor
  · intro h
    constructor
    · rw [TransitCalculator.estimatePeakDate, if_pos h]
    · rw [AstrologicalCalculator.estimatePeakDate, if_pos h]
  · intro h
    refine ⟨?_, ?_, ?_, ?_⟩
    · intro hfar
      rw [TransitCalculator.estimatePeakDate, if_neg h]
      exact if_pos hfar
    · intro hnear
      rw [TransitCalculator.estimatePeakDate, if_neg h]
      exact if_neg hnear
    · intro hfar
      rw [AstrologicalCalculator.estimatePeakDate, if_neg h]
      exact if_pos hfar
    · intro hnear
      rw [AstrologicalCalculator.estimatePeakDate, if_neg h]
      exact if_neg hnear

/-- C8 witness: a body at 100° moving +1°/day in exact square (90°) to a
fixed partner at 10°: `daysToExact = 0`, so both variants return the as-of
date itself. -/
theorem c8_witness :
    TransitCalculator.estimatePeakDate ⟨100, 1, "", 0⟩ ⟨10, 0, "", 0⟩ 90 0 = some 0 ∧
    AstrologicalCalculator.estimatePeakDate ⟨100, 1, "", 0⟩ ⟨10, 0, "", 0⟩ 90 0 = some 0 := by
  have h := c8_estimatePeakDate_spec ⟨100, 1, "", 0⟩ ⟨10, 0, "", 0⟩ 90 0
  have hd : peakDaysToExact ⟨100, 1, "", 0⟩ ⟨10, 0, "", 0⟩ 90 = 0 := by
    with_unfolding_all decide
  have h1 := (h.2 (by norm_num)).2.1 (by rw [hd]; norm_num)
  have h2 := (h.2 (by norm_num)).2.2.2 (by rw [hd]; norm_num)
  rw [hd] at h1 h2
  have he : TransitCalculator.dateFromMs (0 + 0 * (24 * 60 * 60 * 1000) : ℚ) = 0 := by
    with_unfolding_all decide
  rw [he] at h1 h2
  exact ⟨h1, h2⟩

/-- C9 counterexample: a position record with a missing/`NaN` longitude
speed does not raise an invalid-input error — `isTransitApplying` quietly
returns false and `estimatePeakDate` quietly returns an Invalid Date (a
`NaN` time value propagated into the aspect record). -/
theorem c9_counterexample :
    TransitCalculator.isTransitApplyingJS ⟨some 15, none⟩ ⟨some 105, none⟩ (some 90) =
      false ∧
    TransitCalculator.estimatePeakDateJS ⟨some 15, none⟩ ⟨some 105, none⟩ (some 90)
      (some 0) = some none := by
  with_unfolding_all decide

/-- C9 amended: a missing or `NaN` longitude speed is silently absorbed,
never rejected: for every such input `isTransitApplying` returns false
(every `NaN` comparison is false) and `estimatePeakDate` passes both of
its guards and returns an Invalid Date rather than null or an error. -/
theorem c9_nan_silently_propagated :
    ∀ (transitPos natalPos : PositionJS) (targetAngle currentDate : JSNum),
      transitPos.longitudeSpeed = none →
      TransitCalculator.isTransitApplyingJS transitPos natalPos targetAngle = false ∧
      TransitCalculator.estimatePeakDateJS transitPos natalPos targetAngle currentDate =
        some none := by
  rintro ⟨lon, spd⟩ np t d h
  simp only at h
  subst h
  constructor
  · simp [TransitCalculator.isTransitApplyingJS, calculateAngleBetweenPlanetsJS]
  · simp [TransitCalculator.estimatePeakDateJS]

lemma foldl_updateTransitSummary_total
    (l : List TransitCalculator.TransitAspect) (s : TransitCalculator.TransitSummary) :
    (l.foldl TransitCalculator.updateTransitSummary s).total = s.total + l.length := by
  induction l generalizing s with
  | nil => simp
  | cons a l ih =>
    simp only [List.foldl_cons, List.length_cons, ih,
      TransitCalculator.updateTransitSummary]
    omega

lemma foldl_updateTransitSummary_split
    (l : List TransitCalculator.TransitAspect) (s : TransitCalculator.TransitSummary) :
    (l.foldl TransitCalculator.updateTransitSummary s).applying +
      (l.foldl TransitCalculator.updateTransitSummary s).separating =
    s.applying + s.separating + l.length := by
  induction l generalizing s with
  | nil => simp
  | cons a l ih =>
    simp only [List.foldl_cons, List.length_cons, ih,
      TransitCalculator.updateTransitSummary]
    split_ifs with h <;> omega

lemma foldl_updateTransitSummary_exact
    (l : List TransitCalculator.TransitAspect) (s : TransitCalculator.TransitSummary) :
    (l.foldl TransitCalculator.updateTransitSummary s).exact =
    s.exact + l.countP (fun a => decide (a.orb < 1/2)) := by
  induction l generalizing s with
  | nil => simp
  | cons a l ih =>
    simp only [List.foldl_cons, List.countP_cons, ih,
      TransitCalculator.updateTransitSummary, decide_eq_true_eq]
    split_ifs with h <;> omega

/-- C10: after `calculateTransits`, the summary is consistent with the
sorted aspect list it accompanies: `total` is the list length and the sum
of the applying and separating counters, and `exact` counts exactly the
listed aspects with orb strictly below 0.5°. -/
theorem c10_transit_summary_consistent :
    ∀ (transitPositions natalPositions : List (String × Position)) (transitDate : ℚ),
      (TransitCalculator.calculateTransits transitPositions natalPositions
          transitDate).2.total =
        (TransitCalculator.calculateTransits transitPositions natalPositions
          transitDate).1.length ∧
      (TransitCalculator.calculateTransits transitPositions natalPositions
          transitDate).2.total =
        (TransitCalculator.calculateTransits transitPositions natalPositions
          transitDate).2.applying +
        (TransitCalculator.calculateTransits transitPositions natalPositions
          transitDate).2.separating ∧
      (TransitCalculator.calculateTransits transitPositions natalPositions
          transitDate).2.exact =
        ((TransitCalculator.calculateTransits transitPositions natalPositions
          transitDate).1.filter (fun a => a.orb < 1/2)).length := by
  intro tp np d
  have hperm :
      ((TransitCalculator.buildTransitAspects tp np d).insertionSort
        (fun a b => a.orb ≤ b.orb)).Perm (TransitCalculator.buildTransitAspects tp np d) :=
    List.perm_insertionSort _ _
  refine ⟨?_, ?_, ?_⟩
  · simp only [TransitCalculator.calculateTransits, hperm.length_eq,
      foldl_updateTransitSummary_total]
    simp [TransitCalculator.emptySummary]
  · simp only [TransitCalculator.calculateTransits]
    rw [foldl_updateTransitSummary_total, foldl_updateTransitSummary_split]
    simp [TransitCalculator.emptySummary]
  · simp only [TransitCalculator.calculateTransits]
    rw [foldl_updateTransitSummary_exact, ← List.countP_eq_length_filter,
      hperm.countP_eq]
    simp [TransitCalculator.emptySummary]

/-- C4 counterexample: `calculateAspectsOfTwoCharts` (the chart-to-chart
builder of the consolidated calculator) returns its aspects in pair
enumeration order, not sorted by orb — its sort statement sits after an
unconditional return.  A Saturn chart against a two-body chart yields the
orb sequence `[2, 1]`, which is not ascending. -/
theorem c4_counterexample :
    (AstrologicalCalculator.calculateAspectsOfTwoCharts
        [("Saturn", ⟨0, 1, "Capricorn", 1⟩)]
        [("Sun", ⟨2, 1, "Capricorn", 1⟩), ("Moon", ⟨1, 1, "Capricorn", 1⟩)]
        false 0).map (fun a => a.orb) = [2, 1] ∧
    ¬ List.Sorted (fun a b => a.orb ≤ b.orb)
      (AstrologicalCalculator.calculateAspectsOfTwoCharts
        [("Saturn", ⟨0, 1, "Capricorn", 1⟩)]
        [("Sun", ⟨2, 1, "Capricorn", 1⟩), ("Moon", ⟨1, 1, "Capricorn", 1⟩)]
        false 0) := by
  exact ⟨by with_unfolding_all decide, by with_unfolding_all decide⟩

/-- C4 amended: the transit-to-natal builder `calculateTransits` does sort
its aspect list ascending by orb — via a stable sort, so ties keep
insertion order, and the sorted list is a permutation of the built list —
while the consolidated calculator's chart-to-chart and natal builders
return their lists in pair-enumeration order because their sort statement
is unreachable. -/
theorem c4_calculateTransits_sorted_by_orb :
    ∀ (transitPositions natalPositions : List (String × Position)) (transitDate : ℚ),
      List.Sorted (fun a b => a.orb ≤ b.orb)
        (TransitCalculator.calculateTransits transitPositions natalPositions
          transitDate).1 ∧
      (TransitCalculator.calculateTransits transitPositions natalPositions
          transitDate).1.Perm
        (TransitCalculator.buildTransitAspects transitPositions natalPositions
          transitDate) := by
  intro tp np d
  exact ⟨List.sorted_insertionSort _ _, List.perm_insertionSort _ _⟩

lemma srmLoop_spec (eph : AstrologicalCalculator.Ephemeris) (target : ℚ)
    (h : ∀ q, ∃ lon speed, eph q = some (lon, speed) ∧ 1/10000 ≤ |speed|) :
    ∀ (n : ℕ) (jd : ℚ), ∃ m ≤ n,
      AstrologicalCalculator.srmLoop eph target n jd =
        Except.ok (AstrologicalCalculator.srmIterate eph target m jd) ∧
      (∀ k < m,
        ¬ |AstrologicalCalculator.srmDiff eph target
            (AstrologicalCalculator.srmIterate eph target k jd)| < 1/100000) ∧
      (m < n →
        |AstrologicalCalculator.srmDiff eph target
          (AstrologicalCalculator.srmIterate eph target m jd)| < 1/100000) := by
  intro n
  induction n with
  | zero =>
    intro jd
    exact ⟨0, le_refl 0, rfl, fun k hk => absurd hk (Nat.not_lt_zero k),
      fun hm => absurd hm (lt_irrefl 0)⟩
  | succ n ih =>
    intro jd
    obtain ⟨lon, speed, heq, hsp⟩ := h jd
    have hdiff : AstrologicalCalculator.srmDiff eph target jd =
        AstrologicalCalculator.srmFold (target - lon) := by
      simp [AstrologicalCalculator.srmDiff, heq]
    by_cases hsmall : |AstrologicalCalculator.srmFold (target - lon)| < 1/100000
    · refine ⟨0, Nat.zero_le _, ?_, fun k hk => absurd hk (Nat.not_lt_zero k), fun _ => ?_⟩
      · simp only [AstrologicalCalculator.srmLoop, heq]
        rw [if_pos hsmall]
        rfl
      · rw [AstrologicalCalculator.srmIterate, hdiff]
        exact hsmall
    · have hnext : jd + AstrologicalCalculator.srmFold (target - lon) / speed =
          AstrologicalCalculator.srmNext eph target jd := by
        simp [AstrologicalCalculator.srmNext, heq]
      obtain ⟨m, hm, hloop, hmin, hconv⟩ :=
        ih (AstrologicalCalculator.srmNext eph target jd)
      refine ⟨m + 1, Nat.succ_le_succ hm, ?_, ?_, ?_⟩
      · simp only [AstrologicalCalculator.srmLoop, heq]
        rw [if_neg hsmall, if_neg (not_lt.mpr hsp), hnext]
        exact hloop
      · intro k hk
        match k with
        | 0 =>
          rw [AstrologicalCalculator.srmIterate, hdiff]
          exact hsmall
        | k + 1 =>
          rw [AstrologicalCalculator.srmIterate]
          exact hmin k (Nat.lt_of_succ_lt_succ hk)
      · intro hlt
        rw [AstrologicalCalculator.srmIterate]
        exact hconv (Nat.lt_of_succ_lt_succ hlt)

/-- C7: `findSolarReturnMoment` performs at most 20 Newton iterations:
with an ephemeris that always answers and never reports a near-zero speed,
it returns (without failing) the `m`-th iterate for some `m ≤ 20`, where
every earlier iterate's folded signed difference to the target was at
least the `1e-5` tolerance, and where the `m`-th iterate is within
tolerance whenever the cap was not reached — i.e. it stops at the first
in-tolerance estimate and falls back to the last estimate at the cap. -/
theorem c7_findSolarReturnMoment_iteration_cap :
    ∀ (eph : AstrologicalCalculator.Ephemeris) (natalSunLongitude searchJD : ℚ),
      (∀ q, ∃ lon speed, eph q = some (lon, speed) ∧ 1/10000 ≤ |speed|) →
      ∃ m ≤ 20,
        AstrologicalCalculator.findSolarReturnMoment eph natalSunLongitude searchJD =
          Except.ok (AstrologicalCalculator.srmIterate eph natalSunLongitude m searchJD) ∧
        (∀ k < m,
          ¬ |AstrologicalCalculator.srmDiff eph natalSunLongitude
              (AstrologicalCalculator.srmIterate eph natalSunLongitude k searchJD)| <
            1/100000) ∧
        (m < 20 →
          |AstrologicalCalculator.srmDiff eph natalSunLongitude
            (AstrologicalCalculator.srmIterate eph natalSunLongitude m searchJD)| <
          1/100000) := by
  intro eph target jd0 h
  exact srmLoop_spec eph target h 20 jd0

/-- C7 witness: a synthetic body moving at 1°/day from longitude = Julian
day, target 5: the solver converges (here in one Newton step) to some
iterate within the 20-iteration cap. -/
theorem c7_witness :
    ∃ m ≤ 20,
      AstrologicalCalculator.findSolarReturnMoment (fun q => some (q, 1)) 5 0 =
        Except.ok (AstrologicalCalculator.srmIterate (fun q => some (q, 1)) 5 m 0) := by
  obtain ⟨m, hm, hok, -, -⟩ :=
    c7_findSolarReturnMoment_iteration_cap (fun q => some (q, 1)) 5 0
      (fun q => ⟨q, 1, rfl, by norm_num⟩)
  exact ⟨m, hm, hok⟩

lemma bisectLoop_spec (check : ℕ → Bool) (precMs c : ℕ)
    (hc : ∀ t, check t = true ↔ c ≤ t) (hprec : 1 ≤ precMs) :
    ∀ (fuel low high : ℕ), high - low ≤ fuel → low < c → c ≤ high →
      low ≤ TransitCalculator.bisectLoop check precMs fuel low high ∧
      TransitCalculator.bisectLoop check precMs fuel low high < c ∧
      ∃ h', c ≤ h' ∧ h' ≤ high ∧
        h' - TransitCalculator.bisectLoop check precMs fuel low high ≤ precMs := by
  intro fuel
  induction fuel with
  | zero =>
    intro low high hf hlc hch
    omega
  | succ fuel ih =>
    intro low high hf hlc hch
    have heq : TransitCalculator.bisectLoop check precMs (fuel + 1) low high =
        if high - low > precMs then
          (if check ((low + high) / 2) then
            TransitCalculator.bisectLoop check precMs fuel low ((low + high) / 2)
          else TransitCalculator.bisectLoop check precMs fuel ((low + high) / 2) high)
        else low := rfl
    rw [heq]
    by_cases hgt : high - low > precMs
    · rw [if_pos hgt]
      by_cases hm : check ((low + high) / 2) = true
      · rw [if_pos hm]
        have hcm : c ≤ (low + high) / 2 := (hc _).mp hm
        obtain ⟨h1, h2, h', hh1, hh2, hh3⟩ := ih low ((low + high) / 2) (by omega) hlc hcm
        exact ⟨h1, h2, h', hh1, by omega, hh3⟩
      · rw [if_neg hm]
        have hcm : (low + high) / 2 < c := by
          rcases Nat.lt_or_ge ((low + high) / 2) c with h | h
          · exact h
          · exact absurd ((hc _).mpr h) hm
        obtain ⟨h1, h2, h', hh1, hh2, hh3⟩ := ih ((low + high) / 2) high (by omega) hcm hch
        exact ⟨by omega, h2, h', hh1, hh2, hh3⟩
    · rw [if_neg hgt]
      exact ⟨le_refl low, hlc, high, hch, le_refl high, by omega⟩

/-- C1: `findExactMoment` returns `startDate` at once when the predicate
already holds there; returns none when the predicate fails at `endDate`
(it never searches past `endDate`); and otherwise — for a predicate with a
single false-to-true crossing at `c` inside the interval — bisects until
the bracket is at most `precision` minutes (`precision * 60 * 1000` ms)
and returns a moment within that precision below the crossing. -/
theorem c1_findExactMoment_spec :
    ∀ (startDate endDate precision : ℕ) (checkFunction : ℕ → Bool),
      1 ≤ precision →
      (checkFunction startDate = true →
        TransitCalculator.findExactMoment startDate endDate checkFunction precision =
          some startDate) ∧
      (checkFunction startDate = false → checkFunction endDate = false →
        TransitCalculator.findExactMoment startDate endDate checkFunction precision =
          none) ∧
      (∀ c, (∀ t, checkFunction t = true ↔ c ≤ t) →
        checkFunction startDate = false → checkFunction endDate = true →
        ∃ r, TransitCalculator.findExactMoment startDate endDate checkFunction precision =
            some r ∧
          startDate ≤ r ∧ r < c ∧ c ≤ endDate ∧ c - r ≤ precision * 60 * 1000) := by
  intro startDate endDate precision check hprec
  refine ⟨?_, ?_, ?_⟩
  · intro hs
    simp only [TransitCalculator.findExactMoment]
    rw [if_pos hs]
  · intro hs he
    simp only [TransitCalculator.findExactMoment]
    rw [if_neg (by simp [hs]), if_pos (by simp [he])]
  · intro c hc hs he
    simp only [TransitCalculator.findExactMoment]
    rw [if_neg (by simp [hs]), if_neg (by simp [he])]
    have hlc : startDate < c := by
      rcases Nat.lt_or_ge startDate c with h | h
      · exact h
      · rw [(hc startDate).mpr h] at hs
        cases hs
    have hch : c ≤ endDate := (hc endDate).mp he
    obtain ⟨h1, h2, h', hh1, hh2, hh3⟩ :=
      bisectLoop_spec check (precision * 60 * 1000) c hc (by omega)
        (endDate - startDate) startDate endDate (le_refl _) hlc hch
    exact ⟨_, rfl, h1, h2, hch, by omega⟩

/-- C1 witness: step predicate crossing at t = 60000 ms on the interval
[0 ms, 100000 ms] with the default 1-minute precision: the search returns
the moment 50000 ms, within one minute below the crossing. -/
theorem c1_witness :
    (∃ r, TransitCalculator.findExactMoment 0 100000 (fun t => decide (60000 ≤ t)) 1 =
        some r ∧ 0 ≤ r ∧ r < 60000 ∧ 60000 ≤ 100000 ∧ 60000 - r ≤ 1 * 60 * 1000) ∧
    TransitCalculator.findExactMoment 0 100000 (fun t => decide (60000 ≤ t)) 1 =
      some 50000 := by
  constructor
  · exact (c1_findExactMoment_spec 0 100000 1 (fun t => decide (60000 ≤ t))
      (le_refl 1)).2.2 60000 (fun t => by simp) (by decide) (by decide)
  · decide

lemma normalize360_eq_self {lon : ℚ} (h0 : 0 ≤ lon) (h1 : lon < 360) :
    normalize360 lon = lon := by
  have htr : truncQ (lon / 360) = 0 := by
    rw [truncQ, if_pos (by positivity)]
    rw [Int.floor_eq_zero_iff]
    constructor
    · positivity
    · rw [div_lt_one (by norm_num)]
      exact h1
  simp only [normalize360, jsRem, htr, Int.cast_zero, mul_zero, sub_zero,
    if_neg (not_lt.mpr h0)]

/-- On a cyclically reindexed cusp chain `b 0 ≤ b 1 ≤ ... ≤ b 11` (the
wrap arc living between `b 11` and `b 0`), every longitude lies in exactly
one arc: arcs `[b j, b (j+1))` for `j ≤ 10`, and the wrap arc
`lon ≥ b 11 ∨ lon < b 0` for `j = 11`. -/
lemma chain_cover (b : ℕ → ℚ) (lon : ℚ) (hchain : ∀ j, j < 11 → b j ≤ b (j + 1)) :
    ∃ j, j ≤ 11 ∧
      (if j = 11 then (b 11 ≤ lon ∨ lon < b 0) else (b j ≤ lon ∧ lon < b (j + 1))) ∧
      ∀ k, k ≤ 11 →
        (if k = 11 then (b 11 ≤ lon ∨ lon < b 0) else (b k ≤ lon ∧ lon < b (k + 1))) →
        k = j := by
  have bmono : ∀ j k, j ≤ k → k ≤ 11 → b j ≤ b k := by
    intro j k
    induction k with
    | zero =>
      intro hjk _
      cases Nat.le_zero.mp hjk
      exact le_refl _
    | succ k ih =>
      intro hjk hk
      rcases eq_or_lt_of_le hjk with rfl | hlt
      · exact le_refl _
      · exact le_trans (ih (by omega) (by omega)) (hchain k (by omega))
  by_cases hwrap : b 11 ≤ lon ∨ lon < b 0
  · refine ⟨11, le_refl _, by simpa using hwrap, ?_⟩
    intro k hk hmatch
    by_contra hne
    rw [if_neg hne] at hmatch
    obtain ⟨h1, h2⟩ := hmatch
    rcases hwrap with hw | hw
    · have := bmono (k + 1) 11 (by omega) (le_refl _)
      linarith
    · have := bmono 0 k (Nat.zero_le _) (by omega)
      linarith
  · push_neg at hwrap
    obtain ⟨hlt11, hge0⟩ := hwrap
    have hj10 : Nat.findGreatest (fun j => b j ≤ lon) 10 ≤ 10 :=
      Nat.findGreatest_le 10
    have hPj : b (Nat.findGreatest (fun j => b j ≤ lon) 10) ≤ lon :=
      @Nat.findGreatest_spec 0 (fun j => b j ≤ lon) _ 10 (Nat.zero_le 10) hge0
    have hnext : lon < b (Nat.findGreatest (fun j => b j ≤ lon) 10 + 1) := by
      by_cases hj : Nat.findGreatest (fun j => b j ≤ lon) 10 = 10
      · rw [hj]
        exact hlt11
      · have hng : ¬ b (Nat.findGreatest (fun j => b j ≤ lon) 10 + 1) ≤ lon :=
          @Nat.findGreatest_is_greatest (Nat.findGreatest (fun j => b j ≤ lon) 10 + 1)
            (fun j => b j ≤ lon) _ 10 (Nat.lt_succ_self _) (by omega)
        by_contra hle
        push_neg at hle
        exact hng hle
    refine ⟨Nat.findGreatest (fun j => b j ≤ lon) 10, by omega, ?_, ?_⟩
    · rw [if_neg (by omega)]
      exact ⟨hPj, hnext⟩
    · intro k hk hmatch
      by_cases hk11 : k = 11
      · rw [hk11, if_pos rfl] at hmatch
        rcases hmatch with hw | hw
        · linarith
        · linarith
      · rw [if_neg hk11] at hmatch
        obtain ⟨h1, h2⟩ := hmatch
        rcases Nat.lt_trichotomy k (Nat.findGreatest (fun j => b j ≤ lon) 10) with h | h | h
        · have := bmono (k + 1) (Nat.findGreatest (fun j => b j ≤ lon) 10) (by omega)
            (by omega)
          linarith
        · exact h
        · have hng : ¬ b k ≤ lon :=
            @Nat.findGreatest_is_greatest k (fun j => b j ≤ lon) _ 10 h (by omega)
          exact absurd h1 hng

/-- C2: for any 12 house cusps forming a circular sequence spanning the
full circle (one wrap descent at index `d`, the cusp chain nondecreasing
from there around the circle) and any longitude in `[0, 360)`, exactly one
cusp arc matches; `determinePlanetHouse` returns that arc's house number
(so the result is in 1..12 and the fallback branch is unreachable).  With
evenly spaced cusps `[0, 30, ..., 330]`, longitude 45° gives house 2 and
longitude 359° gives house 12 (the wrap case). -/
theorem c2_determinePlanetHouse_partition :
    (∀ (cusps : List ℚ) (d : ℕ) (lon : ℚ),
      cusps.length = 12 → d < 12 →
      cusps.getD ((d + 1) % 12) 0 < cusps.getD d 0 →
      (∀ j, j < 11 →
        cusps.getD ((d + 1 + j) % 12) 0 ≤ cusps.getD ((d + 1 + (j + 1)) % 12) 0) →
      0 ≤ lon → lon < 360 →
      ∃ i, i < 12 ∧ houseMatch lon cusps i = true ∧
        (∀ i', i' < 12 → houseMatch lon cusps i' = true → i' = i) ∧
        determinePlanetHouse lon cusps = i + 1) ∧
    determinePlanetHouse 45 [0, 30, 60, 90, 120, 150, 180, 210, 240, 270, 300, 330] = 2 ∧
    determinePlanetHouse 359 [0, 30, 60, 90, 120, 150, 180, 210, 240, 270, 300, 330] = 12 := by
  refine ⟨?_, by with_unfolding_all decide, by with_unfolding_all decide⟩
  intro cusps d lon hlen hd hdesc hchain h0 h1
  have hnorm : normalize360 lon = lon := normalize360_eq_self h0 h1
  obtain ⟨j, hj, hmatchj, huniqj⟩ :=
    chain_cover (fun j => cusps.getD ((d + 1 + j) % 12) 0) lon hchain
  have hbridge : ∀ k, k ≤ 11 →
      (houseMatch lon cusps ((d + 1 + k) % 12) = true ↔
        (if k = 11 then
          (cusps.getD ((d + 1 + 11) % 12) 0 ≤ lon ∨
            lon < cusps.getD ((d + 1 + 0) % 12) 0)
        else
          (cusps.getD ((d + 1 + k) % 12) 0 ≤ lon ∧
            lon < cusps.getD ((d + 1 + (k + 1)) % 12) 0))) := by
    intro k hk
    by_cases hk11 : k = 11
    · subst hk11
      have e1 : (d + 1 + 11) % 12 = d := by omega
      have e0 : (d + 1 + 0) % 12 = (d + 1) % 12 := by omega
      rw [if_pos rfl, e1, e0]
      simp only [houseMatch]
      rw [if_pos hdesc]
      simp [ge_iff_le]
    · rw [if_neg hk11]
      have e2 : ((d + 1 + k) % 12 + 1) % 12 = (d + 1 + (k + 1)) % 12 := by omega
      have hmono := hchain k (by omega)
      simp only [houseMatch]
      rw [e2, if_neg (not_lt.mpr hmono)]
      simp
  have himatch : houseMatch lon cusps ((d + 1 + j) % 12) = true :=
    (hbridge j hj).mpr hmatchj
  have huniq : ∀ i', i' < 12 → houseMatch lon cusps i' = true → i' = (d + 1 + j) % 12 := by
    intro i' hi' hmi'
    obtain ⟨j', hj', hpj'⟩ : ∃ j', j' ≤ 11 ∧ (d + 1 + j') % 12 = i' :=
      ⟨(i' + 12 - (d + 1) % 12) % 12, by omega, by omega⟩
    have hcondj' := (hbridge j' hj').mp (by rw [hpj']; exact hmi')
    have hjj := huniqj j' hj' hcondj'
    omega
  have hfind : (List.range 12).find? (fun k => houseMatch lon cusps k) =
      some ((d + 1 + j) % 12) := by
    cases hf : (List.range 12).find? (fun k => houseMatch lon cusps k) with
    | none =>
      rw [List.find?_eq_none] at hf
      exact absurd himatch
        (by simpa using hf _ (List.mem_range.mpr (Nat.mod_lt _ (by norm_num))))
    | some i' =>
      have hm1 : houseMatch lon cusps i' = true := by
        simpa using List.find?_some hf
      have hm2 : i' < 12 := List.mem_range.mp (List.mem_of_find?_eq_some hf)
      rw [huniq i' hm2 hm1]
  refine ⟨(d + 1 + j) % 12, Nat.mod_lt _ (by norm_num), himatch, huniq, ?_⟩
  simp only [determinePlanetHouse, hnorm, hfind]

/-- C2 witness: the evenly spaced cusps `[0, 30, ..., 330]` form a
circular sequence with the wrap descent at index 11; instantiating the
partition theorem at longitude 45° yields the unique matching arc. -/
theorem c2_witness :
    ∃ i, i < 12 ∧
      houseMatch 45 [0, 30, 60, 90, 120, 150, 180, 210, 240, 270, 300, 330] i = true ∧
      (∀ i', i' < 12 →
        houseMatch 45 [0, 30, 60, 90, 120, 150, 180, 210, 240, 270, 300, 330] i' = true →
        i' = i) ∧
      determinePlanetHouse 45 [0, 30, 60, 90, 120, 150, 180, 210, 240, 270, 300, 330] =
        i + 1 :=
  c2_determinePlanetHouse_partition.1
    [0, 30, 60, 90, 120, 150, 180, 210, 240, 270, 300, 330] 11 45
    (by with_unfolding_all decide) (by norm_num)
    (by with_unfolding_all decide) (by with_unfolding_all decide)
    (by norm_num) (by norm_num)

/-- C9 witness for the amended statement, at a second concrete input. -/
theorem c9_witness :
    TransitCalculator.isTransitApplyingJS ⟨some 20, none⟩ ⟨some 50, some 1⟩ (some 30) =
      false ∧
    TransitCalculator.estimatePeakDateJS ⟨some 20, none⟩ ⟨some 50, some 1⟩ (some 30)
      (some 1000) = some none :=
  c9_nan_silently_propagated ⟨some 20, none⟩ ⟨some 50, some 1⟩ (some 30) (some 1000) rfl
